import Mathlib

/-!
Verification of the authentication and authorization subsystem of the
importAIWeb blogging platform (Express/Mongoose backend, React client).

The definitions below are a shallow embedding of:
  - src/middleware/security.js : generateTokens, authenticate, authorize,
    optionalAuth, checkOwnership;
  - the User mongoose model (schema fields and the toJSON transform);
  - the Blog mongoose model (ownership field author_id);
  - the client AuthContext (createApiRequest, handleTokenRefresh, logout).

Modelling conventions:
  - MongoDB ObjectIds are Nat.
  - A missing JS value (undefined or null) is Option.none; JS string
    truthiness (empty string is falsy) is optTruthy.
  - jwt.verify is modelled through an abstract wire decoder
    decode : String -> Option JwtClaims; decode t = none models a malformed
    token or one whose signature matches no key, and a decoded claim set
    carries the secret under which the token was signed, so a secret
    mismatch models an invalid signature.
  - The database is a list of User records; User.findById is a lookup by id.
  - Express middleware is denoted by a result value: either control passes
    to the downstream handler (MwResult.next, carrying whatever the
    middleware attached to the request) or a response is sent and the
    handler is never invoked (MwResult.response status body).
-/

/-- JSON response envelope used by every middleware error path:
`\x7bsuccess, message, code?\x7d`. -/
structure ResBody where
  success : Bool
  message : String
  code : Option String
deriving DecidableEq, Repr

/-- Denotation of an Express middleware run: either control passes to the
downstream handler (with the data the middleware attached to `req`), or a
response was sent and the handler is never invoked. -/
inductive MwResult (A : Type) where
  | next (attached : A)
  | response (status : Nat) (body : ResBody)
deriving DecidableEq, Repr

/-- True when the middleware passed control to the downstream handler. -/
def MwResult.passes {A : Type} : MwResult A → Bool
  | .next _ => true
  | .response _ _ => false

/-- JS truthiness of a possibly-absent string: undefined, null and the empty
string are falsy. -/
def optTruthy : Option String → Bool
  | none => false
  | some s => !(s == "")

/-- A User document as stored, with every schema field of the userSchema
(src User model): name, email, password_hash (absent for OAuth users), role
(Admin or Reader), googleId, linkedinId, avatar, isActive, lastLogin,
refreshToken. `id` is the document _id. -/
structure User where
  id : Nat
  name : String
  email : String
  password_hash : Option String
  role : String
  googleId : Option String
  linkedinId : Option String
  avatar : String
  isActive : Bool
  lastLogin : Option Nat
  refreshToken : Option String
deriving DecidableEq, Repr

/-- The projection `.select('-password_hash -refreshToken')` applied by the
auth middleware: every schema field except password_hash and refreshToken. -/
structure SafeUser where
  id : Nat
  name : String
  email : String
  role : String
  googleId : Option String
  linkedinId : Option String
  avatar : String
  isActive : Bool
  lastLogin : Option Nat
deriving DecidableEq, Repr

/-- The select projection stripping the two sensitive fields. -/
def selectSafe (u : User) : SafeUser :=
  { id := u.id, name := u.name, email := u.email, role := u.role
    googleId := u.googleId, linkedinId := u.linkedinId, avatar := u.avatar
    isActive := u.isActive, lastLogin := u.lastLogin }

/-- `User.findById`: lookup of a user document by its _id. -/
def findById (db : List User) (uid : Nat) : Option User :=
  db.find? (fun u => u.id == uid)

/-- The claim set of a signed JWT as seen by the verifier. The `secret`
field records the key the token was signed under, so that a verification
key mismatch models an invalid signature. -/
structure JwtClaims where
  userId : Nat
  exp : Nat
  secret : String
deriving DecidableEq, Repr

/-- Outcome of `jwt.verify`: success with the decoded userId, a thrown
TokenExpiredError, or any other thrown error (malformed token or invalid
signature). -/
inductive JwtResult where
  | ok (userId : Nat)
  | expiredErr
  | invalidErr
deriving DecidableEq, Repr

/-- `jwt.verify(token, secret)` at clock instant `now`, relative to a wire
decoder: a token that does not decode is malformed; a decoded token signed
under a different key has an invalid signature; a decoded token signed under
`secret` whose expiry has passed throws TokenExpiredError (the signature is
checked before the expiry, as jsonwebtoken does); otherwise the payload is
returned. -/
def jwtVerify (decode : String → Option JwtClaims) (token secret : String)
    (now : Nat) : JwtResult :=
  match decode token with
  | none => .invalidErr
  | some c =>
    if c.secret != secret then .invalidErr
    else if c.exp ≤ now then .expiredErr
    else .ok c.userId

/-- The parts of the request the auth middleware reads: the authorization
header and the accessToken cookie. -/
structure AuthRequest where
  authorization : Option String
  cookieAccessToken : Option String
deriving DecidableEq, Repr

/-- JS `String.prototype.split` with a one-character separator, on the
character list of the string. -/
def splitChars (sep : Char) : List Char → List Char → List (List Char)
  | [], acc => [acc.reverse]
  | c :: cs, acc =>
    if c == sep then acc.reverse :: splitChars sep cs []
    else splitChars sep cs (c :: acc)

/-- JS `s.split(sep)` for a one-character separator. -/
def jsSplit (s : String) (sep : Char) : List String :=
  (splitChars sep s.data []).map List.asString

/-- JS `s.startsWith(pre)`. -/
def jsStartsWith (s pre : String) : Bool :=
  pre.data.isPrefixOf s.data

/-- Token extraction of `authenticate` and `optionalAuth`: a truthy
authorization header starting with Bearer yields its second
space-separated word; otherwise a truthy accessToken cookie is used;
otherwise there is no token. -/
def extractToken (req : AuthRequest) : Option String :=
  if optTruthy req.authorization
      && jsStartsWith (req.authorization.getD "") "Bearer" then
    (jsSplit (req.authorization.getD "") ' ').get? 1
  else if optTruthy req.cookieAccessToken then
    req.cookieAccessToken
  else
    none

/-- The `authenticate` middleware: extract a token (401 if falsy), verify it
against JWT_SECRET (401 with code TOKEN_EXPIRED on expiry, generic 401
otherwise), load the user stripped of sensitive fields (401 if missing, 401
if deactivated), and attach it to the request. -/
def authenticate (decode : String → Option JwtClaims) (jwtSecret : String)
    (now : Nat) (db : List User) (req : AuthRequest) : MwResult SafeUser :=
  let token := extractToken req
  if !optTruthy token then
    .response 401 ⟨false, "Access denied. No token provided.", none⟩
  else
    match jwtVerify decode (token.getD "") jwtSecret now with
    | .expiredErr => .response 401 ⟨false, "Token expired", some "TOKEN_EXPIRED"⟩
    | .invalidErr => .response 401 ⟨false, "Invalid token", none⟩
    | .ok uid =>
      match findById db uid with
      | none => .response 401 ⟨false, "Invalid token. User not found.", none⟩
      | some u =>
        if !u.isActive then
          .response 401 ⟨false, "Account is deactivated.", none⟩
        else
          .next (selectSafe u)

/-- The `optionalAuth` middleware: same extraction and verification path as
`authenticate`, but every path calls next(); the user is attached only when
the token verifies and references an existing active user. -/
def optionalAuth (decode : String → Option JwtClaims) (jwtSecret : String)
    (now : Nat) (db : List User) (req : AuthRequest) :
    MwResult (Option SafeUser) :=
  let token := extractToken req
  if optTruthy token then
    match jwtVerify decode (token.getD "") jwtSecret now with
    | .ok uid =>
      match findById db uid with
      | some u =>
        if u.isActive then .next (some (selectSafe u)) else .next none
      | none => .next none
    | _ => .next none
  else
    .next none

/-- A token produced by `jwt.sign(\x7buserId\x7d, secret, \x7bexpiresIn\x7d)`:
the payload, the signing key and the requested lifetime. -/
structure SignedToken where
  userId : Nat
  secret : String
  expiresIn : String
deriving DecidableEq, Repr

/-- The pair returned by generateTokens. -/
structure TokenPair where
  accessToken : SignedToken
  refreshToken : SignedToken
deriving DecidableEq, Repr

/-- The environment variables read by generateTokens and the middleware. -/
structure ProcessEnv where
  JWT_SECRET : String
  JWT_REFRESH_SECRET : String
  JWT_EXPIRE : Option String
  JWT_REFRESH_EXPIRE : Option String
deriving DecidableEq, Repr

/-- JS `v || dflt` on a possibly-absent environment string. -/
def envOr (v : Option String) (dflt : String) : String :=
  if optTruthy v then v.getD "" else dflt

/-- `jwt.sign`: a pure construction of the signed token. -/
def jwtSign (userId : Nat) (secret expiresIn : String) : SignedToken :=
  ⟨userId, secret, expiresIn⟩

/-- `generateTokens(userId)`: the access token signed with JWT_SECRET and
lifetime JWT_EXPIRE or 7d, and the refresh token signed with
JWT_REFRESH_SECRET and lifetime JWT_REFRESH_EXPIRE or 30d. -/
def generateTokens (env : ProcessEnv) (userId : Nat) : TokenPair :=
  { accessToken := jwtSign userId env.JWT_SECRET (envOr env.JWT_EXPIRE "7d")
    refreshToken :=
      jwtSign userId env.JWT_REFRESH_SECRET (envOr env.JWT_REFRESH_EXPIRE "30d") }

/-- The `authorize(...roles)` middleware: 401 when no user was attached by
`authenticate`, 403 naming the required roles and the actual role when the
attached role is not in the list, next() otherwise. -/
def authorize (roles : List String) (reqUser : Option SafeUser) :
    MwResult Unit :=
  match reqUser with
  | none => .response 401 ⟨false, "Access denied. Not authenticated.", none⟩
  | some u =>
    if !(roles.contains u.role) then
      .response 403
        ⟨false,
          "Access denied. Required role: " ++ String.intercalate " or " roles
            ++ ". Your role: " ++ u.role, none⟩
    else
      .next ()

/-- The view checkOwnership takes of an arbitrary resource document: the two
owner fields it probes, each possibly absent. -/
structure Resource where
  author_id : Option Nat
  user_id : Option Nat
deriving DecidableEq, Repr

/-- Association-list lookup, modelling findById on a keyed collection and
the req.params table. -/
def lookupAssoc {κ α : Type} [BEq κ] (l : List (κ × α)) (k : κ) : Option α :=
  (l.find? (fun p => p.1 == k)).map Prod.snd

/-- The `checkOwnership(resourceModel, resourceIdParam)` middleware. Admins
pass immediately, before the resource is even loaded. Otherwise the resource
id is read from req.params and the document fetched: a missing document is a
404; a present author_id differing from the caller id is a 403, then a
present user_id differing from the caller id is a 403; otherwise the
resource is attached and control passes. `resourceModel` denotes the
collection `findById`. -/
def checkOwnership (resourceModel : Nat → Option Resource)
    (resourceIdParam : String) (reqUser : SafeUser)
    (reqParams : List (String × Nat)) : MwResult (Option Resource) :=
  if reqUser.role == "Admin" then
    .next none
  else
    let resourceId := lookupAssoc reqParams resourceIdParam
    match resourceId.bind resourceModel with
    | none => .response 404 ⟨false, "Resource not found", none⟩
    | some r =>
      if (match r.author_id with
          | some a => a != reqUser.id
          | none => false) then
        .response 403
          ⟨false, "Access denied. You can only access your own resources.",
            none⟩
      else if (match r.user_id with
          | some a => a != reqUser.id
          | none => false) then
        .response 403
          ⟨false, "Access denied. You can only access your own resources.",
            none⟩
      else
        .next (some r)

/-- A Blog document, reduced to its owner reference: the blogSchema declares
a required author_id and has no user_id field. checkOwnership is
instantiated in the routes only with the Blog model. -/
structure Blog where
  author_id : Nat
deriving DecidableEq, Repr

/-- The ownership view of a Blog document: author_id present, user_id
absent (the schema has no such path). -/
def blogResource (b : Blog) : Resource :=
  { author_id := some b.author_id, user_id := none }

/-- `Blog.findById` over a stored collection, as seen by checkOwnership. -/
def blogModel (blogs : List (Nat × Blog)) : Nat → Option Resource :=
  fun rid => (lookupAssoc blogs rid).map blogResource

/-- Stringified rendering of an optional value for the field tables below;
the rendering is irrelevant to the theorems, only key names matter. -/
def optStr : Option String → String
  | none => ""
  | some s => s

/-- The full field table of a serialized User document, before the toJSON
transform: every schema path plus _id and the version key. -/
def userDocFields (u : User) : List (String × String) :=
  [("_id", toString u.id),
   ("name", u.name),
   ("email", u.email),
   ("password_hash", optStr u.password_hash),
   ("role", u.role),
   ("googleId", optStr u.googleId),
   ("linkedinId", optStr u.linkedinId),
   ("avatar", u.avatar),
   ("isActive", toString u.isActive),
   ("lastLogin", optStr (u.lastLogin.map (fun n => toString n))),
   ("refreshToken", optStr u.refreshToken),
   ("__v", "0")]

/-- `delete ret.key` on a serialized document. -/
def deleteField (key : String) (fields : List (String × String)) :
    List (String × String) :=
  fields.filter (fun p => p.1 != key)

/-- The userSchema toJSON transform: delete password_hash, refreshToken and
__v from the serialized document. -/
def userToJSON (u : User) : List (String × String) :=
  deleteField "__v" (deleteField "refreshToken"
    (deleteField "password_hash" (userDocFields u)))

/-- The field table of the projection attached to the request by the auth
middleware (the SafeUser shape). -/
def safeUserFields (u : SafeUser) : List (String × String) :=
  [("_id", toString u.id),
   ("name", u.name),
   ("email", u.email),
   ("role", u.role),
   ("googleId", optStr u.googleId),
   ("linkedinId", optStr u.linkedinId),
   ("avatar", u.avatar),
   ("isActive", toString u.isActive),
   ("lastLogin", optStr (u.lastLogin.map (fun n => toString n)))]

/-!
Client side (AuthContext): createApiRequest, handleTokenRefresh and the
localStorage part of logout. `fetch` of the original endpoint is an
abstract function from the Authorization token to a response; none models a
thrown network error. The refresh endpoint call is one abstract response.
-/

/-- The locally stored session state: localStorage authToken and userData. -/
structure ClientState where
  authToken : Option String
  userData : Option String
deriving DecidableEq, Repr

/-- A parsed fetch response: HTTP status and the JSON body fields the
client reads (success, message, code, accessToken). -/
structure FetchResp where
  status : Nat
  success : Bool
  message : String
  code : Option String
  accessToken : Option String
deriving DecidableEq, Repr

/-- `response.ok`: status in the 200 range. -/
def respOk (r : FetchResp) : Bool :=
  decide (200 ≤ r.status) && decide (r.status < 300)

/-- Observable network events of one createApiRequest run: a request to the
original endpoint carrying an Authorization token, or a call to the refresh
endpoint. -/
inductive ClientEvent where
  | request (token : Option String)
  | refresh
deriving DecidableEq, Repr

/-- `handleTokenRefresh`: POST /auth/refresh; on an ok, successful response
store the returned access token and report true; on any other response, or
a thrown fetch, report false. -/
def handleTokenRefresh (refreshResp : Option FetchResp) (st : ClientState) :
    Bool × ClientState :=
  match refreshResp with
  | none => (false, st)
  | some r =>
    if respOk r && r.success then
      (true, { st with authToken := r.accessToken })
    else
      (false, st)

/-- The localStorage clearing in the finally block of `logout`: remove
authToken and userData. -/
def logoutLocal (_st : ClientState) : ClientState :=
  { authToken := none, userData := none }

/-- What a createApiRequest run returns to its caller: the parsed JSON on
success, or a thrown error message. -/
inductive ApiOutcome where
  | ok (data : FetchResp)
  | thrown (msg : String)
deriving DecidableEq, Repr

/-- Message of the error thrown on a non-ok response:
`data.message || HTTP error! status: ...`. -/
def httpErrMsg (r : FetchResp) : String :=
  if r.message != "" then r.message
  else "HTTP error! status: " ++ toString r.status

/-- `createApiRequest`: fetch with the stored token; on a 401 with code
TOKEN_EXPIRED perform one refresh, and on refresh success retry once with
the new token and return the retry body unconditionally, while on refresh
failure clear the local session and throw a session-expired error; any
other non-ok response throws its message; otherwise return the body.
`fetchFn` is the original endpoint (none = thrown fetch); the result also
carries the final client state and the trace of network events. -/
def createApiRequest (fetchFn : Option String → Option FetchResp)
    (refreshResp : Option FetchResp) (st : ClientState) :
    ApiOutcome × ClientState × List ClientEvent :=
  let token := st.authToken
  match fetchFn token with
  | none => (.thrown "network error", st, [.request token])
  | some resp =>
    if resp.status == 401 && resp.code == some "TOKEN_EXPIRED" then
      match handleTokenRefresh refreshResp st with
      | (true, st1) =>
        let newToken := st1.authToken
        match fetchFn newToken with
        | none =>
          (.thrown "network error", st1,
            [.request token, .refresh, .request newToken])
        | some retryResp =>
          (.ok retryResp, st1, [.request token, .refresh, .request newToken])
      | (false, st1) =>
        (.thrown "Session expired. Please login again.", logoutLocal st1,
          [.request token, .refresh])
    else if !respOk resp then
      (.thrown (httpErrMsg resp), st, [.request token])
    else
      (.ok resp, st, [.request token])

/-- Number of refresh-endpoint calls in a trace. -/
def countRefreshes (tr : List ClientEvent) : Nat :=
  (tr.filter (fun e =>
    match e with
    | ClientEvent.refresh => true
    | ClientEvent.request _ => false)).length

/-- Number of original-endpoint requests in a trace (1 = no retry). -/
def countRequests (tr : List ClientEvent) : Nat :=
  (tr.filter (fun e =>
    match e with
    | ClientEvent.request _ => true
    | ClientEvent.refresh => false)).length

/-!  Concrete material used by the witness theorems. -/

/-- A wire decoder for witnesses: one valid token, one expired token, one
token signed under a different key; everything else is malformed. -/
def wDecode : String → Option JwtClaims := fun s =>
  if s == "goodTok" then some ⟨1, 100, "sec"⟩
  else if s == "expTok" then some ⟨1, 5, "sec"⟩
  else if s == "wrongTok" then some ⟨1, 100, "other"⟩
  else if s == "ghostTok" then some ⟨5, 100, "sec"⟩
  else if s == "inactTok" then some ⟨2, 100, "sec"⟩
  else none

/-- An active Reader user. -/
def wAlice : User :=
  ⟨1, "Alice", "alice@x.com", some "ph", "Reader", none, none, "", true,
    none, some "rt"⟩

/-- A deactivated user. -/
def wBob : User :=
  ⟨2, "Bob", "bob@x.com", some "ph", "Reader", none, none, "", false,
    none, none⟩

/-- The witness database. -/
def wDb : List User := [wAlice, wBob]

/-- An Admin caller as attached by authenticate. -/
def wAdmin : SafeUser := ⟨9, "Root", "root@x.com", "Admin", none, none, "", true, none⟩

/-- A Reader caller with id 1. -/
def wReader1 : SafeUser := ⟨1, "Alice", "alice@x.com", "Reader", none, none, "", true, none⟩

/-- A Reader caller with id 2. -/
def wReader2 : SafeUser := ⟨2, "Bob", "bob@x.com", "Reader", none, none, "", true, none⟩

/-- A one-blog collection: blog 7 authored by user 1. -/
def wBlogs : List (Nat × Blog) := [(7, ⟨1⟩)]

/-!  Claim theorems. -/

/-- Claim C3: a request carrying no access token (no truthy Bearer
authorization header token and no truthy accessToken cookie) gets a 401
from `authenticate` without reaching the downstream handler, while
`optionalAuth` passes control to the handler with no identity attached. -/
theorem claim_C3 (decode : String → Option JwtClaims) (jwtSecret : String)
    (now : Nat) (db : List User) (req : AuthRequest)
    (h : optTruthy (extractToken req) = false) :
    authenticate decode jwtSecret now db req
      = .response 401 ⟨false, "Access denied. No token provided.", none⟩
    ∧ optionalAuth decode jwtSecret now db req = .next none := by
  constructor
  · simp [authenticate, h]
  · simp [optionalAuth, h]

/-- Witness for C3 at the empty request. -/
theorem claim_C3_witness :
    authenticate wDecode "sec" 50 wDb ⟨none, none⟩
      = .response 401 ⟨false, "Access denied. No token provided.", none⟩
    ∧ optionalAuth wDecode "sec" 50 wDb ⟨none, none⟩ = .next none :=
  claim_C3 wDecode "sec" 50 wDb ⟨none, none⟩ (by decide)

/-- Claim C5: generateTokens returns the access token signed with
JWT_SECRET and lifetime JWT_EXPIRE defaulting to 7d, and the refresh token
signed with JWT_REFRESH_SECRET and lifetime JWT_REFRESH_EXPIRE defaulting
to 30d; when the two environment secrets differ the two tokens are signed
under different keys. The embedding of generateTokens is a pure function,
so it has no side effect beyond constructing the two signed tokens. -/
theorem claim_C5 (env : ProcessEnv) (userId : Nat) :
    (generateTokens env userId).accessToken
      = jwtSign userId env.JWT_SECRET (envOr env.JWT_EXPIRE "7d")
    ∧ (generateTokens env userId).refreshToken
      = jwtSign userId env.JWT_REFRESH_SECRET (envOr env.JWT_REFRESH_EXPIRE "30d")
    ∧ (env.JWT_EXPIRE = none →
        (generateTokens env userId).accessToken.expiresIn = "7d")
    ∧ (env.JWT_REFRESH_EXPIRE = none →
        (generateTokens env userId).refreshToken.expiresIn = "30d")
    ∧ (env.JWT_SECRET ≠ env.JWT_REFRESH_SECRET →
        (generateTokens env userId).accessToken.secret
          ≠ (generateTokens env userId).refreshToken.secret) := by
  refine ⟨rfl, rfl, ?_, ?_, ?_⟩
  · intro h; simp [generateTokens, jwtSign, envOr, h, optTruthy]
  · intro h; simp [generateTokens, jwtSign, envOr, h, optTruthy]
  · intro h; simpa [generateTokens, jwtSign] using h

/-- Witness for C5 at a concrete environment with unset lifetimes and
distinct secrets. -/
theorem claim_C5_witness :
    (generateTokens ⟨"sec", "refsec", none, none⟩ 1).accessToken.expiresIn = "7d"
    ∧ (generateTokens ⟨"sec", "refsec", none, none⟩ 1).refreshToken.expiresIn = "30d"
    ∧ (generateTokens ⟨"sec", "refsec", none, none⟩ 1).accessToken.secret
        ≠ (generateTokens ⟨"sec", "refsec", none, none⟩ 1).refreshToken.secret :=
  ⟨(claim_C5 ⟨"sec", "refsec", none, none⟩ 1).2.2.1 rfl,
   (claim_C5 ⟨"sec", "refsec", none, none⟩ 1).2.2.2.1 rfl,
   (claim_C5 ⟨"sec", "refsec", none, none⟩ 1).2.2.2.2 (by decide)⟩

/-- Claim C6 (amended): for every authenticated non-Admin caller, when the
id read from req.params resolves to no resource the checkOwnership
middleware responds 404 Resource not found, for every resource model and so
before any ownership comparison; an Admin caller instead bypasses the
middleware, including the resource lookup, so the not-found case passes
control to the handler rather than responding 404. -/
theorem claim_C6 (resourceModel : Nat → Option Resource)
    (resourceIdParam : String) (caller : SafeUser)
    (params : List (String × Nat))
    (hrole : caller.role ≠ "Admin")
    (hmiss : (lookupAssoc params resourceIdParam).bind resourceModel = none) :
    checkOwnership resourceModel resourceIdParam caller params
      = .response 404 ⟨false, "Resource not found", none⟩ := by
  simp [checkOwnership, hrole, hmiss]

/-- Witness for C6: a Reader caller and an empty collection. -/
theorem claim_C6_witness :
    checkOwnership (blogModel []) "id" wReader1 [("id", 1)]
      = .response 404 ⟨false, "Resource not found", none⟩ :=
  claim_C6 (blogModel []) "id" wReader1 [("id", 1)] (by decide) (by decide)

/-- Counterexample for C6 as stated: an Admin caller requesting a missing
resource is passed to the handler, not answered 404, because the Admin
bypass precedes the resource lookup. -/
theorem claim_C6_counterexample :
    checkOwnership (blogModel []) "id" wAdmin [("id", 1)] = .next none
    ∧ MwResult.next (none : Option Resource)
        ≠ MwResult.response 404 ⟨false, "Resource not found", none⟩ := by
  constructor
  · decide
  · decide

/-- Claim C7: for an authenticated caller, authorize responds 403 with a
message naming the required roles (joined with or) and the actual role of
the caller when that role is not in the required list, and passes control
to the handler when it is. -/
theorem claim_C7 (roles : List String) (u : SafeUser) :
    (roles.contains u.role = false →
      authorize roles (some u)
        = .response 403
            ⟨false,
              "Access denied. Required role: "
                ++ String.intercalate " or " roles ++ ". Your role: " ++ u.role,
              none⟩)
    ∧ (roles.contains u.role = true → authorize roles (some u) = .next ()) := by
  constructor
  · intro h
    simp [authorize, h]
    simpa using h
  · intro h
    simp [authorize, h]
    simpa using h

/-- Claim C2: on a request carrying a token, if the token decodes under the
access-token secret but its expiry has passed, authenticate answers 401
with machine-readable code TOKEN_EXPIRED; a malformed token, or one signed
under a different key, gets the generic Invalid token 401, whose code field
is empty. -/
theorem claim_C2 (decode : String → Option JwtClaims) (jwtSecret : String)
    (now : Nat) (db : List User) (req : AuthRequest) (tok : String)
    (hex : extractToken req = some tok) (hne : tok ≠ "") :
    (∀ c, decode tok = some c → c.secret = jwtSecret → c.exp ≤ now →
      authenticate decode jwtSecret now db req
        = .response 401 ⟨false, "Token expired", some "TOKEN_EXPIRED"⟩)
    ∧ (decode tok = none →
      authenticate decode jwtSecret now db req
        = .response 401 ⟨false, "Invalid token", none⟩)
    ∧ (∀ c, decode tok = some c → c.secret ≠ jwtSecret →
      authenticate decode jwtSecret now db req
        = .response 401 ⟨false, "Invalid token", none⟩) := by
  have htr : optTruthy (extractToken req) = true := by
    rw [hex]; simp [optTruthy, hne]
  refine ⟨?_, ?_, ?_⟩
  · intro c hc hsec hexp
    simp [authenticate, htr, hex, optTruthy, hne, jwtVerify, hc, hsec, hexp]
  · intro hc
    simp [authenticate, htr, hex, optTruthy, hne, jwtVerify, hc]
  · intro c hc hsec
    simp [authenticate, htr, hex, optTruthy, hne, jwtVerify, hc, hsec]

/-- Witness for C2: the expired, malformed and wrongly-signed concrete
tokens. -/
theorem claim_C2_witness :
    authenticate wDecode "sec" 50 wDb ⟨some "Bearer expTok", none⟩
      = .response 401 ⟨false, "Token expired", some "TOKEN_EXPIRED"⟩
    ∧ authenticate wDecode "sec" 50 wDb ⟨some "Bearer junk", none⟩
      = .response 401 ⟨false, "Invalid token", none⟩
    ∧ authenticate wDecode "sec" 50 wDb ⟨some "Bearer wrongTok", none⟩
      = .response 401 ⟨false, "Invalid token", none⟩ :=
  ⟨(claim_C2 wDecode "sec" 50 wDb ⟨some "Bearer expTok", none⟩ "expTok"
      (by decide) (by decide)).1 ⟨1, 5, "sec"⟩ (by decide) rfl (by decide),
   (claim_C2 wDecode "sec" 50 wDb ⟨some "Bearer junk", none⟩ "junk"
      (by decide) (by decide)).2.1 (by decide),
   (claim_C2 wDecode "sec" 50 wDb ⟨some "Bearer wrongTok", none⟩ "wrongTok"
      (by decide) (by decide)).2.2 ⟨1, 100, "other"⟩ (by decide) (by decide)⟩

/-- Claim C4: whenever authenticate passes control, the attached identity
is the sensitive-field-stripped projection of a stored user whose isActive
flag is true; a verified token whose userId matches no user gets the 401
Invalid token. User not found. response, and one matching a deactivated
user gets the 401 Account is deactivated. response, in both cases without
reaching the handler. -/
theorem claim_C4 (decode : String → Option JwtClaims) (jwtSecret : String)
    (now : Nat) (db : List User) (req : AuthRequest) :
    (∀ su, authenticate decode jwtSecret now db req = .next su →
      ∃ w : User, w ∈ db ∧ w.isActive = true ∧ su = selectSafe w)
    ∧ (∀ tok c, extractToken req = some tok → tok ≠ "" →
        decode tok = some c → c.secret = jwtSecret → now < c.exp →
        findById db c.userId = none →
        authenticate decode jwtSecret now db req
          = .response 401 ⟨false, "Invalid token. User not found.", none⟩)
    ∧ (∀ tok c u, extractToken req = some tok → tok ≠ "" →
        decode tok = some c → c.secret = jwtSecret → now < c.exp →
        findById db c.userId = some u → u.isActive = false →
        authenticate decode jwtSecret now db req
          = .response 401 ⟨false, "Account is deactivated.", none⟩) := by
  refine ⟨?_, ?_, ?_⟩
  · intro su h
    simp only [authenticate] at h
    split at h
    · exact absurd h (by simp)
    · split at h
      · exact absurd h (by simp)
      · exact absurd h (by simp)
      · split at h
        · exact absurd h (by simp)
        · rename_i u hfind
          split at h
          · exact absurd h (by simp)
          · rename_i hact
            refine ⟨u, List.mem_of_find?_eq_some hfind, ?_, ?_⟩
            · simpa using hact
            · simpa using h.symm
  · intro tok c hex hne hc hsec hexp hfind
    have htr : optTruthy (extractToken req) = true := by
      rw [hex]; simp [optTruthy, hne]
    have hnle : ¬ c.exp ≤ now := Nat.not_le.mpr hexp
    simp [authenticate, htr, hex, optTruthy, hne, jwtVerify, hc, hsec, hnle, hfind]
  · intro tok c u hex hne hc hsec hexp hfind hact
    have htr : optTruthy (extractToken req) = true := by
      rw [hex]; simp [optTruthy, hne]
    have hnle : ¬ c.exp ≤ now := Nat.not_le.mpr hexp
    simp [authenticate, htr, hex, optTruthy, hne, jwtVerify, hc, hsec, hnle, hfind,
      hact]

/-- Witness for C4: a valid token for an active user yields a stored active
user; the ghost token misses the database; the inactive token hits the
deactivated user. -/
theorem claim_C4_witness :
    (∃ w : User, w ∈ wDb ∧ w.isActive = true ∧ selectSafe wAlice = selectSafe w)
    ∧ authenticate wDecode "sec" 50 wDb ⟨some "Bearer ghostTok", none⟩
        = .response 401 ⟨false, "Invalid token. User not found.", none⟩
    ∧ authenticate wDecode "sec" 50 wDb ⟨some "Bearer inactTok", none⟩
        = .response 401 ⟨false, "Account is deactivated.", none⟩ :=
  ⟨(claim_C4 wDecode "sec" 50 wDb ⟨some "Bearer goodTok", none⟩).1
      (selectSafe wAlice) (by decide),
   (claim_C4 wDecode "sec" 50 wDb ⟨some "Bearer ghostTok", none⟩).2.1
      "ghostTok" ⟨5, 100, "sec"⟩ (by decide) (by decide) (by decide) rfl
      (by decide) (by decide),
   (claim_C4 wDecode "sec" 50 wDb ⟨some "Bearer inactTok", none⟩).2.2
      "inactTok" ⟨2, 100, "sec"⟩ wBob (by decide) (by decide) (by decide) rfl
      (by decide) (by decide) (by decide)⟩

/-- Claim C10: under optionalAuth, a well-formed unexpired token whose
userId matches no stored user, or matches a deactivated user, still passes
control to the handler with no identity attached and produces no error
response, exactly like an anonymous caller. -/
theorem claim_C10 (decode : String → Option JwtClaims) (jwtSecret : String)
    (now : Nat) (db : List User) (req : AuthRequest) (tok : String)
    (c : JwtClaims) (hex : extractToken req = some tok) (hne : tok ≠ "")
    (hdec : decode tok = some c) (hsec : c.secret = jwtSecret)
    (hexp : now < c.exp) :
    (findById db c.userId = none →
      optionalAuth decode jwtSecret now db req = .next none)
    ∧ (∀ u, findById db c.userId = some u → u.isActive = false →
      optionalAuth decode jwtSecret now db req = .next none) := by
  have htr : optTruthy (extractToken req) = true := by
    rw [hex]; simp [optTruthy, hne]
  have hnle : ¬ c.exp ≤ now := Nat.not_le.mpr hexp
  constructor
  · intro hfind
    simp [optionalAuth, htr, hex, optTruthy, hne, jwtVerify, hdec, hsec, hnle,
      hfind]
  · intro u hfind hact
    simp [optionalAuth, htr, hex, optTruthy, hne, jwtVerify, hdec, hsec, hnle,
      hfind, hact]

/-- Witness for C10: the ghost and inactive tokens under optionalAuth. -/
theorem claim_C10_witness :
    optionalAuth wDecode "sec" 50 wDb ⟨some "Bearer ghostTok", none⟩
      = .next none
    ∧ optionalAuth wDecode "sec" 50 wDb ⟨some "Bearer inactTok", none⟩
      = .next none :=
  ⟨(claim_C10 wDecode "sec" 50 wDb ⟨some "Bearer ghostTok", none⟩ "ghostTok"
      ⟨5, 100, "sec"⟩ (by decide) (by decide) (by decide) rfl (by decide)).1
      (by decide),
   (claim_C10 wDecode "sec" 50 wDb ⟨some "Bearer inactTok", none⟩ "inactTok"
      ⟨2, 100, "sec"⟩ (by decide) (by decide) (by decide) rfl (by decide)).2
      wBob (by decide) (by decide)⟩

/-- Witness for C7: the Admin-only role list against a Reader and against
an Admin. -/
theorem claim_C7_witness :
    authorize ["Admin"] (some wReader1)
      = .response 403
          ⟨false, "Access denied. Required role: Admin. Your role: Reader",
            none⟩
    ∧ authorize ["Admin"] (some wAdmin) = .next () := by
  constructor
  · have h := (claim_C7 ["Admin"] wReader1).1 (by decide)
    simpa using h
  · exact (claim_C7 ["Admin"] wAdmin).2 (by decide)

/-- Claim C1: for the resources actually routed through checkOwnership
(Blog documents, whose schema has an author_id and no user_id), with the
resource authored by U1: a non-Admin caller distinct from U1 is rejected
with 403; an Admin caller always passes to the handler; the caller U1
always passes to the handler. -/
theorem claim_C1 (blogs : List (Nat × Blog)) (caller : SafeUser)
    (pname : String) (params : List (String × Nat)) (rid u1 : Nat) (b : Blog)
    (hp : lookupAssoc params pname = some rid)
    (hb : lookupAssoc blogs rid = some b)
    (hauthor : b.author_id = u1) :
    (caller.role ≠ "Admin" → caller.id ≠ u1 →
      checkOwnership (blogModel blogs) pname caller params
        = .response 403
            ⟨false, "Access denied. You can only access your own resources.",
              none⟩)
    ∧ (caller.role = "Admin" →
      (checkOwnership (blogModel blogs) pname caller params).passes = true)
    ∧ (caller.id = u1 →
      (checkOwnership (blogModel blogs) pname caller params).passes = true) := by
  refine ⟨?_, ?_, ?_⟩
  · intro h1 h2
    have h2s : u1 ≠ caller.id := fun e => h2 e.symm
    simp [checkOwnership, h1, hp, blogModel, hb, blogResource, hauthor, h2s]
  · intro h
    simp [checkOwnership, h, MwResult.passes]
  · intro h
    by_cases hr : caller.role = "Admin"
    · simp [checkOwnership, hr, MwResult.passes]
    · simp [checkOwnership, hr, hp, blogModel, hb, blogResource, hauthor, h,
        MwResult.passes]

/-- Witness for C1: blog 7 authored by user 1, checked against a foreign
Reader, an Admin, and the author. -/
theorem claim_C1_witness :
    checkOwnership (blogModel wBlogs) "id" wReader2 [("id", 7)]
      = .response 403
          ⟨false, "Access denied. You can only access your own resources.",
            none⟩
    ∧ (checkOwnership (blogModel wBlogs) "id" wAdmin [("id", 7)]).passes = true
    ∧ (checkOwnership (blogModel wBlogs) "id" wReader1 [("id", 7)]).passes
        = true :=
  ⟨(claim_C1 wBlogs wReader2 "id" [("id", 7)] 7 1 ⟨1⟩ (by decide) (by decide)
      rfl).1 (by decide) (by decide),
   (claim_C1 wBlogs wAdmin "id" [("id", 7)] 7 1 ⟨1⟩ (by decide) (by decide)
      rfl).2.1 rfl,
   (claim_C1 wBlogs wReader1 "id" [("id", 7)] 7 1 ⟨1⟩ (by decide) (by decide)
      rfl).2.2 rfl⟩

/-- Claim C9: the serialized form of any User document omits password_hash
and refreshToken (the toJSON transform deletes them), and the identity
attached to the request by a successful authenticate carries no
password_hash or refreshToken field (it is the select projection). -/
theorem claim_C9 (u : User) (decode : String → Option JwtClaims)
    (jwtSecret : String) (now : Nat) (db : List User) (req : AuthRequest)
    (su : SafeUser)
    (_h : authenticate decode jwtSecret now db req = .next su) :
    ("password_hash" ∉ (userToJSON u).map Prod.fst
      ∧ "refreshToken" ∉ (userToJSON u).map Prod.fst)
    ∧ ("password_hash" ∉ (safeUserFields su).map Prod.fst
      ∧ "refreshToken" ∉ (safeUserFields su).map Prod.fst) := by
  have hk : (userToJSON u).map Prod.fst
      = ["_id", "name", "email", "role", "googleId", "linkedinId", "avatar",
          "isActive", "lastLogin"] := rfl
  have hs : (safeUserFields su).map Prod.fst
      = ["_id", "name", "email", "role", "googleId", "linkedinId", "avatar",
          "isActive", "lastLogin"] := rfl
  refine ⟨⟨?_, ?_⟩, ⟨?_, ?_⟩⟩
  · rw [hk]; decide
  · rw [hk]; decide
  · rw [hs]; decide
  · rw [hs]; decide

/-- Witness for C9 at a successful concrete authentication. -/
theorem claim_C9_witness :
    ("password_hash" ∉ (userToJSON wAlice).map Prod.fst
      ∧ "refreshToken" ∉ (userToJSON wAlice).map Prod.fst)
    ∧ ("password_hash" ∉ (safeUserFields (selectSafe wAlice)).map Prod.fst
      ∧ "refreshToken" ∉ (safeUserFields (selectSafe wAlice)).map Prod.fst) :=
  claim_C9 wAlice wDecode "sec" 50 wDb ⟨some "Bearer goodTok", none⟩
    (selectSafe wAlice) (by decide)

/-- Claim C8: a createApiRequest run whose first response is a 401 with
code TOKEN_EXPIRED performs exactly one refresh call; every run makes at
most one refresh call and at most two requests to the original endpoint;
when the refresh reports success the run retries the original request
exactly once with the refreshed token and returns the retry body; when the
refresh reports failure the run clears the stored authToken and userData
and throws the session-expired error without retrying. -/
theorem claim_C8 (fetchFn : Option String → Option FetchResp)
    (refreshResp : Option FetchResp) (st : ClientState) (resp : FetchResp)
    (h1 : fetchFn st.authToken = some resp)
    (h2 : resp.status = 401) (h3 : resp.code = some "TOKEN_EXPIRED") :
    countRefreshes (createApiRequest fetchFn refreshResp st).2.2 = 1
    ∧ (∀ f r s, countRefreshes (createApiRequest f r s).2.2 ≤ 1
        ∧ countRequests (createApiRequest f r s).2.2 ≤ 2)
    ∧ (∀ st1, handleTokenRefresh refreshResp st = (true, st1) →
        (createApiRequest fetchFn refreshResp st).2.2
          = [.request st.authToken, .refresh, .request st1.authToken]
        ∧ ∀ r2, fetchFn st1.authToken = some r2 →
            (createApiRequest fetchFn refreshResp st).1 = .ok r2)
    ∧ (∀ st1, handleTokenRefresh refreshResp st = (false, st1) →
        (createApiRequest fetchFn refreshResp st).1
            = .thrown "Session expired. Please login again."
        ∧ (createApiRequest fetchFn refreshResp st).2.1 = ⟨none, none⟩
        ∧ (createApiRequest fetchFn refreshResp st).2.2
            = [.request st.authToken, .refresh]) := by
  have hcond : (resp.status == 401 && resp.code == some "TOKEN_EXPIRED")
      = true := by simp [h2, h3]
  refine ⟨?_, ?_, ?_, ?_⟩
  · rcases hr : handleTokenRefresh refreshResp st with ⟨b, st1⟩
    cases b
    · simp [createApiRequest, h1, hcond, hr, countRefreshes]
    · cases hf2 : fetchFn st1.authToken
      · simp [createApiRequest, h1, hcond, hr, hf2, countRefreshes]
      · simp [createApiRequest, h1, hcond, hr, hf2, countRefreshes]
  · intro f r s
    cases hf : f s.authToken
    · simp [createApiRequest, hf, countRefreshes, countRequests]
    · rename_i resp2
      by_cases hc : (resp2.status == 401
            && resp2.code == some "TOKEN_EXPIRED") = true
      · rcases hr : handleTokenRefresh r s with ⟨b, st1⟩
        cases b
        · simp [createApiRequest, hf, hc, hr, countRefreshes, countRequests]
        · cases hf2 : f st1.authToken
          · simp [createApiRequest, hf, hc, hr, hf2, countRefreshes,
              countRequests]
          · simp [createApiRequest, hf, hc, hr, hf2, countRefreshes,
              countRequests]
      · rw [Bool.not_eq_true] at hc
        by_cases ho : respOk resp2 = true
        · simp [createApiRequest, hf, hc, ho, countRefreshes, countRequests]
        · rw [Bool.not_eq_true] at ho
          simp [createApiRequest, hf, hc, ho, countRefreshes, countRequests]
  · intro st1 hr
    constructor
    · cases hf2 : fetchFn st1.authToken
      · simp [createApiRequest, h1, hcond, hr, hf2]
      · simp [createApiRequest, h1, hcond, hr, hf2]
    · intro r2 hr2
      simp [createApiRequest, h1, hcond, hr, hr2]
  · intro st1 hr
    refine ⟨?_, ?_, ?_⟩
    · simp [createApiRequest, h1, hcond, hr]
    · simp [createApiRequest, h1, hcond, hr, logoutLocal]
    · simp [createApiRequest, h1, hcond, hr]

/-- The original endpoint for the C8 witness: the stale token old is
reported expired, the refreshed token new succeeds, anything else is a
plain 401. -/
def wFetch : Option String → Option FetchResp := fun t =>
  if t == some "old" then some ⟨401, false, "Token expired",
    some "TOKEN_EXPIRED", none⟩
  else if t == some "new" then some ⟨200, true, "ok", none, none⟩
  else some ⟨401, false, "Invalid token", none, none⟩

/-- Witness for C8: a stale client under a succeeding refresh (one refresh,
one retry, retry body returned) and under a failing refresh (session
cleared, session-expired thrown). -/
theorem claim_C8_witness :
    countRefreshes (createApiRequest wFetch
        (some ⟨200, true, "", none, some "new"⟩)
        ⟨some "old", some "ud"⟩).2.2 = 1
    ∧ (createApiRequest wFetch (some ⟨200, true, "", none, some "new"⟩)
        ⟨some "old", some "ud"⟩).2.2
        = [.request (some "old"), .refresh, .request (some "new")]
    ∧ (createApiRequest wFetch (some ⟨200, true, "", none, some "new"⟩)
        ⟨some "old", some "ud"⟩).1 = .ok ⟨200, true, "ok", none, none⟩
    ∧ (createApiRequest wFetch (some ⟨401, false, "", none, none⟩)
        ⟨some "old", some "ud"⟩).1
        = .thrown "Session expired. Please login again."
    ∧ (createApiRequest wFetch (some ⟨401, false, "", none, none⟩)
        ⟨some "old", some "ud"⟩).2.1 = ⟨none, none⟩ :=
  ⟨(claim_C8 wFetch (some ⟨200, true, "", none, some "new"⟩)
      ⟨some "old", some "ud"⟩ ⟨401, false, "Token expired",
        some "TOKEN_EXPIRED", none⟩ (by decide) rfl rfl).1,
   ((claim_C8 wFetch (some ⟨200, true, "", none, some "new"⟩)
      ⟨some "old", some "ud"⟩ ⟨401, false, "Token expired",
        some "TOKEN_EXPIRED", none⟩ (by decide) rfl rfl).2.2.1
      ⟨some "new", some "ud"⟩ (by decide)).1,
   ((claim_C8 wFetch (some ⟨200, true, "", none, some "new"⟩)
      ⟨some "old", some "ud"⟩ ⟨401, false, "Token expired",
        some "TOKEN_EXPIRED", none⟩ (by decide) rfl rfl).2.2.1
      ⟨some "new", some "ud"⟩ (by decide)).2
      ⟨200, true, "ok", none, none⟩ (by decide),
   ((claim_C8 wFetch (some ⟨401, false, "", none, none⟩)
      ⟨some "old", some "ud"⟩ ⟨401, false, "Token expired",
        some "TOKEN_EXPIRED", none⟩ (by decide) rfl rfl).2.2.2
      ⟨some "old", some "ud"⟩ (by decide)).1,
   ((claim_C8 wFetch (some ⟨401, false, "", none, none⟩)
      ⟨some "old", some "ud"⟩ ⟨401, false, "Token expired",
        some "TOKEN_EXPIRED", none⟩ (by decide) rfl rfl).2.2.2
      ⟨some "old", some "ud"⟩ (by decide)).2.1⟩
